import Mathlib

/-!
Verification of the SpeedEstimator component (src/SpeedEstimator.cpp,
src/SpeedEstimator.h).

Shallow embedding conventions:
* `unsigned long` timestamps (32-bit on the target platform) are modelled as
  `ℕ` values; the C++ unsigned wraparound subtraction `currTime - mPrevTime`
  is `usub32`, which works modulo `2^32`.
* `int` pulse counts (canonical 32-bit two's complement) are modelled as `ℤ`
  values normalised into `[-2^31, 2^31)` by `toInt32`; the wrapping signed
  subtraction `pulsesCount - mPrevNumPulses` is `ssub32`.
* `float`/`double` arithmetic is modelled exactly over `ℚ`; the decimal
  literals `0.7265`, `0.1367`, `1.0e6`, `60.0` of the source are taken at
  their decimal values.  A second model (`SpeedEstimatorF`, further below)
  tracks finiteness of the floating-point values: `none` stands for the
  non-finite values (Inf/NaN), which in this code arise exactly from a
  division by zero.
* The clock read `micros()` is an external collaborator; `estimateSpeed`
  receives the current clock reading as an explicit argument and returns the
  pair (returned RPM, updated object state).
-/

/-- The modulus of the 32-bit unsigned clock type (`unsigned long`). -/
def timeMod : ℕ := 2 ^ 32

/-- Half of the modulus of the 32-bit signed counter type (`int`). -/
def intHalf : ℤ := 2 ^ 31

/-- 32-bit unsigned wraparound subtraction `a - b` (C++ `unsigned long`
arithmetic), total on `ℕ` by reducing both operands modulo `2^32`. -/
def usub32 (a b : ℕ) : ℕ :=
  (a % timeMod + (timeMod - b % timeMod)) % timeMod

/-- Normalise an integer into the 32-bit two's complement range
`[-2^31, 2^31)`, as the C++ `int` type does. -/
def toInt32 (z : ℤ) : ℤ :=
  (z + intHalf) % (2 ^ 32) - intHalf

/-- 32-bit signed wraparound subtraction `a - b` (C++ `int` arithmetic with
two's complement wraparound, as the tests of
src/test/counters_overflow_tests.cpp exercise it). -/
def ssub32 (a b : ℤ) : ℤ := toInt32 (a - b)

/-- The state of a `SpeedEstimator` object (fields of the C++ class). -/
structure SpeedEstimator where
  mPrevTime : ℕ
  mPrevNumPulses : ℤ
  mSpeedFilt : ℚ
  mSpeedPrev : ℚ
  mPpr : ℚ
  mGearRatio : ℚ
  deriving DecidableEq, Repr

namespace SpeedEstimator

/-- The constructor `SpeedEstimator(float ppr, float gearRatio)`: zeroes the
four dynamic fields and stores the two configuration values unchanged. -/
def init (ppr gearRatio : ℚ) : SpeedEstimator :=
  { mPrevTime := 0, mPrevNumPulses := 0, mSpeedFilt := 0, mSpeedPrev := 0,
    mPpr := ppr, mGearRatio := gearRatio }

/-- The raw time delta `deltaTimeMicros = currTime - mPrevTime` computed by
`estimateSpeed` in `unsigned long` arithmetic. -/
def deltaTimeMicros (s : SpeedEstimator) (currTime : ℕ) : ℕ :=
  usub32 currTime s.mPrevTime

/-- The pulse delta `pulseDiff = pulsesCount - mPrevNumPulses` computed by
`estimateSpeed` in `int` arithmetic (the parameter is first narrowed to the
`int` range, as its C++ type does). -/
def pulseDiff (s : SpeedEstimator) (pulsesCount : ℤ) : ℤ :=
  ssub32 (toInt32 pulsesCount) s.mPrevNumPulses

/-- The raw (pre-filter) velocity in RPM:
`velocity = pulseDiff / deltaTime` (counts/s) followed by the unit
conversion `velocity = (velocity / mPpr) * (1.0 / mGearRatio) * 60.0`. -/
def rawVelocity (ppr gearRatio : ℚ) (pd : ℤ) (deltaTime : ℚ) : ℚ :=
  (((pd : ℚ) / deltaTime) / ppr) * (1 / gearRatio) * 60

/-- `float SpeedEstimator::estimateSpeed(int pulsesCount)`, with the clock
reading `currTime = micros()` passed explicitly.  Returns the pair
(returned value, updated state). -/
def estimateSpeed (s : SpeedEstimator) (currTime : ℕ) (pulsesCount : ℤ) :
    ℚ × SpeedEstimator :=
  let dtm : ℕ := deltaTimeMicros s currTime
  let deltaTime : ℚ := (dtm : ℚ) / 1000000
  if deltaTime ≤ 0 then
    (s.mSpeedFilt, s)
  else
    let pd : ℤ := pulseDiff s pulsesCount
    let velocity : ℚ := (((pd : ℚ) / deltaTime) / s.mPpr) * (1 / s.mGearRatio) * 60
    let speedFilt : ℚ := 0.7265 * s.mSpeedFilt + 0.1367 * velocity + 0.1367 * s.mSpeedPrev
    (speedFilt,
      { s with
        mPrevNumPulses := toInt32 pulsesCount,
        mPrevTime := currTime % timeMod,
        mSpeedFilt := speedFilt,
        mSpeedPrev := velocity })

/-- `void SpeedEstimator::reset()`: zeroes the four dynamic fields, leaving
the configuration untouched. -/
def reset (s : SpeedEstimator) : SpeedEstimator :=
  { s with mPrevTime := 0, mPrevNumPulses := 0, mSpeedFilt := 0, mSpeedPrev := 0 }

end SpeedEstimator

example : usub32 0 (2 ^ 32 - 1) = 1 := by decide
example : ssub32 (-(2 ^ 31)) (2 ^ 31 - 1) = 1 := by decide
example : SpeedEstimator.rawVelocity 374 30 374 1 = 2 := by norm_num [SpeedEstimator.rawVelocity]

/-! ### Arithmetic facts about the wrapping subtractions -/

lemma usub32_lt (a b : ℕ) : usub32 a b < 2 ^ 32 := by
  unfold usub32 timeMod
  omega

lemma usub32_int_modEq (a b : ℕ) :
    Int.ModEq (2 ^ 32) ((usub32 a b : ℕ) : ℤ) ((a : ℤ) - (b : ℤ)) := by
  have hb : b % timeMod ≤ timeMod := le_of_lt (Nat.mod_lt _ (by norm_num [timeMod]))
  unfold Int.ModEq usub32
  push_cast [Nat.cast_sub hb]
  unfold timeMod
  push_cast
  omega

lemma toInt32_range (z : ℤ) : -intHalf ≤ toInt32 z ∧ toInt32 z < intHalf := by
  unfold toInt32 intHalf
  omega

lemma toInt32_modEq (z : ℤ) : Int.ModEq (2 ^ 32) (toInt32 z) z := by
  unfold toInt32 intHalf Int.ModEq
  omega

lemma ssub32_range (a b : ℤ) : -(2 ^ 31) ≤ ssub32 a b ∧ ssub32 a b < 2 ^ 31 := by
  have h := toInt32_range (a - b)
  unfold intHalf at h
  exact h

lemma ssub32_modEq (a b : ℤ) : Int.ModEq (2 ^ 32) (ssub32 a b) (a - b) :=
  toInt32_modEq (a - b)

/-! ### Branch lemmas for `estimateSpeed` -/

lemma deltaTimeQ_pos {dtm : ℕ} (h : dtm ≠ 0) : ¬ ((dtm : ℚ) / 1000000 ≤ 0) := by
  rw [not_le]
  have h0 : (0 : ℚ) < (dtm : ℚ) := by exact_mod_cast Nat.pos_of_ne_zero h
  positivity

lemma estimateSpeed_degenerate_eq (s : SpeedEstimator) (t : ℕ) (p : ℤ)
    (h : s.deltaTimeMicros t = 0) :
    s.estimateSpeed t p = (s.mSpeedFilt, s) := by
  simp only [SpeedEstimator.estimateSpeed, h]
  norm_num

lemma estimateSpeed_accepted (s : SpeedEstimator) (t : ℕ) (p : ℤ)
    (h : s.deltaTimeMicros t ≠ 0) :
    s.estimateSpeed t p =
      (0.7265 * s.mSpeedFilt
         + 0.1367 * SpeedEstimator.rawVelocity s.mPpr s.mGearRatio (s.pulseDiff p)
             ((s.deltaTimeMicros t : ℚ) / 1000000)
         + 0.1367 * s.mSpeedPrev,
       { mPrevTime := t % timeMod,
         mPrevNumPulses := toInt32 p,
         mSpeedFilt :=
           0.7265 * s.mSpeedFilt
             + 0.1367 * SpeedEstimator.rawVelocity s.mPpr s.mGearRatio (s.pulseDiff p)
                 ((s.deltaTimeMicros t : ℚ) / 1000000)
             + 0.1367 * s.mSpeedPrev,
         mSpeedPrev := SpeedEstimator.rawVelocity s.mPpr s.mGearRatio (s.pulseDiff p)
             ((s.deltaTimeMicros t : ℚ) / 1000000),
         mPpr := s.mPpr,
         mGearRatio := s.mGearRatio }) := by
  simp only [SpeedEstimator.estimateSpeed, SpeedEstimator.rawVelocity]
  rw [if_neg (deltaTimeQ_pos h)]

/-! ### Claim theorems -/

/-- C1: if the stored previous timestamp is the maximum value `2^32 - 1` of
the unsigned clock type and the current clock reading is `0`, the raw time
delta computed by `estimateSpeed` is exactly 1 tick; in general the delta is
the fixed-width unsigned wraparound subtraction: it is congruent to
`t - prevTimestamp` modulo `2^32` and always lies below `2^32`. -/
theorem estimateSpeed_time_wrap (s : SpeedEstimator) (a : ℕ)
    (h : s.mPrevTime = 2 ^ 32 - 1) :
    s.deltaTimeMicros 0 = 1 ∧
    s.deltaTimeMicros a < 2 ^ 32 ∧
    Int.ModEq (2 ^ 32) ((s.deltaTimeMicros a : ℕ) : ℤ)
      ((a : ℤ) - (s.mPrevTime : ℤ)) := by
  refine ⟨?_, usub32_lt _ _, usub32_int_modEq _ _⟩
  rw [SpeedEstimator.deltaTimeMicros, h]
  decide

theorem estimateSpeed_time_wrap_witness :
    (SpeedEstimator.mk (2 ^ 32 - 1) 0 0 0 1 1).deltaTimeMicros 0 = 1 ∧
    (SpeedEstimator.mk (2 ^ 32 - 1) 0 0 0 1 1).deltaTimeMicros 100 < 2 ^ 32 ∧
    Int.ModEq (2 ^ 32)
      (((SpeedEstimator.mk (2 ^ 32 - 1) 0 0 0 1 1).deltaTimeMicros 100 : ℕ) : ℤ)
      ((100 : ℤ) - ((SpeedEstimator.mk (2 ^ 32 - 1) 0 0 0 1 1).mPrevTime : ℤ)) :=
  estimateSpeed_time_wrap (SpeedEstimator.mk (2 ^ 32 - 1) 0 0 0 1 1) 100 rfl

/-- C2: if the stored previous pulse count is the maximum `2^31 - 1` of the
signed counter type and the current pulse count is the minimum `-2^31`, the
pulse difference computed by `estimateSpeed` is exactly `+1`; in general the
pulse difference is the signed fixed-width wraparound subtraction: it is
congruent to `current - prev` modulo `2^32` and is the unique such
representative in `[-2^31, 2^31)`. -/
theorem estimateSpeed_pulse_wrap (s : SpeedEstimator) (a b : ℤ)
    (h : s.mPrevNumPulses = 2 ^ 31 - 1) :
    s.pulseDiff (-(2 ^ 31)) = 1 ∧
    -(2 ^ 31) ≤ ssub32 a b ∧ ssub32 a b < 2 ^ 31 ∧
    Int.ModEq (2 ^ 32) (ssub32 a b) (a - b) := by
  refine ⟨?_, (ssub32_range a b).1, (ssub32_range a b).2, ssub32_modEq a b⟩
  rw [SpeedEstimator.pulseDiff, h]
  decide

theorem estimateSpeed_pulse_wrap_witness :
    (SpeedEstimator.mk 0 (2 ^ 31 - 1) 0 0 1 1).pulseDiff (-(2 ^ 31)) = 1 ∧
    -(2 ^ 31) ≤ ssub32 7 3 ∧ ssub32 7 3 < 2 ^ 31 ∧
    Int.ModEq (2 ^ 32) (ssub32 7 3) (7 - 3) :=
  estimateSpeed_pulse_wrap (SpeedEstimator.mk 0 (2 ^ 31 - 1) 0 0 1 1) 7 3 rfl

/-- C4: `estimateSpeed` takes its degenerate branch — returning the stored
`filteredVelocity` with every field unchanged — exactly when the raw
wraparound time delta is zero: the guard `deltaTime <= 0` fires iff
`deltaTimeRaw = 0`, and in that case the call is a no-op on the state. -/
theorem estimateSpeed_zero_delta_noop (s : SpeedEstimator) (t : ℕ) (p : ℤ) :
    (((s.deltaTimeMicros t : ℚ) / 1000000 ≤ 0) ↔ s.deltaTimeMicros t = 0) ∧
    (s.deltaTimeMicros t = 0 → s.estimateSpeed t p = (s.mSpeedFilt, s)) := by
  constructor
  · constructor
    · intro h
      by_contra hne
      exact deltaTimeQ_pos hne h
    · intro h
      rw [h]
      norm_num
  · exact estimateSpeed_degenerate_eq s t p

theorem estimateSpeed_zero_delta_noop_witness :
    ((((SpeedEstimator.init 374 30).deltaTimeMicros 0 : ℚ) / 1000000 ≤ 0) ↔
      (SpeedEstimator.init 374 30).deltaTimeMicros 0 = 0) ∧
    ((SpeedEstimator.init 374 30).deltaTimeMicros 0 = 0 →
      (SpeedEstimator.init 374 30).estimateSpeed 0 5 =
        ((SpeedEstimator.init 374 30).mSpeedFilt, SpeedEstimator.init 374 30)) :=
  estimateSpeed_zero_delta_noop (SpeedEstimator.init 374 30) 0 5

/-- C10: on both branches of `estimateSpeed`, the returned value is exactly
the value of the stored `filteredVelocity` field after the call. -/
theorem estimateSpeed_returns_stored_filter (s : SpeedEstimator) (t : ℕ) (p : ℤ) :
    (s.estimateSpeed t p).1 = (s.estimateSpeed t p).2.mSpeedFilt := by
  by_cases h : s.deltaTimeMicros t = 0
  · rw [estimateSpeed_degenerate_eq s t p h]
  · rw [estimateSpeed_accepted s t p h]

/-- C8: the configuration fields `pulsesPerRevolution` and `gearRatio` are
never mutated: both `estimateSpeed` and `reset` leave them unchanged. -/
theorem config_immutable (s : SpeedEstimator) (t : ℕ) (p : ℤ) :
    (s.estimateSpeed t p).2.mPpr = s.mPpr ∧
    (s.estimateSpeed t p).2.mGearRatio = s.mGearRatio ∧
    s.reset.mPpr = s.mPpr ∧
    s.reset.mGearRatio = s.mGearRatio := by
  by_cases h : s.deltaTimeMicros t = 0
  · rw [estimateSpeed_degenerate_eq s t p h]
    exact ⟨rfl, rfl, rfl, rfl⟩
  · rw [estimateSpeed_accepted s t p h]
    exact ⟨rfl, rfl, rfl, rfl⟩

/-- C7: `reset` restores exactly the state produced by construction with the
same configuration, so a subsequent `estimateSpeed` call with the same clock
reading and pulse count as the very first call after construction returns
exactly the same value (and state). -/
theorem reset_clears_history (s : SpeedEstimator) (t : ℕ) (p : ℤ) :
    s.reset = SpeedEstimator.init s.mPpr s.mGearRatio ∧
    s.reset.estimateSpeed t p =
      (SpeedEstimator.init s.mPpr s.mGearRatio).estimateSpeed t p := by
  have h : s.reset = SpeedEstimator.init s.mPpr s.mGearRatio := rfl
  exact ⟨h, by rw [h]⟩

/-- C3: on every accepted call, the new filtered velocity stored and
returned is `0.7265 * old + 0.1367 * velocity + 0.1367 * previousVelocity`;
in particular, from a zero filter state (first accepted call after reset)
the result is `0.1367 * velocity`. -/
theorem estimateSpeed_filter_update (s : SpeedEstimator) (t : ℕ) (p : ℤ)
    (h : s.deltaTimeMicros t ≠ 0) :
    (s.estimateSpeed t p).2.mSpeedFilt =
      0.7265 * s.mSpeedFilt
        + 0.1367 * SpeedEstimator.rawVelocity s.mPpr s.mGearRatio (s.pulseDiff p)
            ((s.deltaTimeMicros t : ℚ) / 1000000)
        + 0.1367 * s.mSpeedPrev ∧
    (s.estimateSpeed t p).1 = (s.estimateSpeed t p).2.mSpeedFilt ∧
    (s.mSpeedFilt = 0 → s.mSpeedPrev = 0 →
      (s.estimateSpeed t p).1 =
        0.1367 * SpeedEstimator.rawVelocity s.mPpr s.mGearRatio (s.pulseDiff p)
            ((s.deltaTimeMicros t : ℚ) / 1000000)) := by
  rw [estimateSpeed_accepted s t p h]
  refine ⟨rfl, rfl, ?_⟩
  intro h1 h2
  rw [h1, h2]
  ring

theorem estimateSpeed_filter_update_witness :
    ((SpeedEstimator.init 374 30).estimateSpeed 1000000 374).2.mSpeedFilt =
      0.7265 * (SpeedEstimator.init 374 30).mSpeedFilt
        + 0.1367 * SpeedEstimator.rawVelocity (SpeedEstimator.init 374 30).mPpr
            (SpeedEstimator.init 374 30).mGearRatio
            ((SpeedEstimator.init 374 30).pulseDiff 374)
            (((SpeedEstimator.init 374 30).deltaTimeMicros 1000000 : ℚ) / 1000000)
        + 0.1367 * (SpeedEstimator.init 374 30).mSpeedPrev ∧
    ((SpeedEstimator.init 374 30).estimateSpeed 1000000 374).1 =
      ((SpeedEstimator.init 374 30).estimateSpeed 1000000 374).2.mSpeedFilt ∧
    ((SpeedEstimator.init 374 30).mSpeedFilt = 0 →
      (SpeedEstimator.init 374 30).mSpeedPrev = 0 →
      ((SpeedEstimator.init 374 30).estimateSpeed 1000000 374).1 =
        0.1367 * SpeedEstimator.rawVelocity (SpeedEstimator.init 374 30).mPpr
            (SpeedEstimator.init 374 30).mGearRatio
            ((SpeedEstimator.init 374 30).pulseDiff 374)
            (((SpeedEstimator.init 374 30).deltaTimeMicros 1000000 : ℚ) / 1000000)) :=
  estimateSpeed_filter_update (SpeedEstimator.init 374 30) 1000000 374 (by decide)

/-- C5: the raw velocity fed to the filter (also stored in
`previousVelocity`) is `(pulseDiff / deltaTime) / pulsesPerRevolution *
(1 / gearRatio) * 60`; with `pulsesPerRevolution = 374`, `gearRatio = 30`, a
pulse delta of 374 over exactly 1 second it is exactly 2 RPM. -/
theorem estimateSpeed_unit_conversion (s : SpeedEstimator) (t : ℕ) (p : ℤ)
    (ppr gear dt : ℚ) (pd : ℤ)
    (h : s.deltaTimeMicros t ≠ 0) :
    (s.estimateSpeed t p).2.mSpeedPrev =
      SpeedEstimator.rawVelocity s.mPpr s.mGearRatio (s.pulseDiff p)
        ((s.deltaTimeMicros t : ℚ) / 1000000) ∧
    SpeedEstimator.rawVelocity ppr gear pd dt =
      ((pd : ℚ) / dt) / ppr * (1 / gear) * 60 ∧
    SpeedEstimator.rawVelocity 374 30 374 1 = 2 ∧
    ((SpeedEstimator.init 374 30).estimateSpeed 1000000 374).2.mSpeedPrev = 2 := by
  refine ⟨?_, rfl, ?_, ?_⟩
  · rw [estimateSpeed_accepted s t p h]
  · norm_num [SpeedEstimator.rawVelocity]
  · rw [estimateSpeed_accepted (SpeedEstimator.init 374 30) 1000000 374 (by decide)]
    have hp : (SpeedEstimator.init 374 30).pulseDiff 374 = 374 := by decide
    have hd : (SpeedEstimator.init 374 30).deltaTimeMicros 1000000 = 1000000 := by decide
    rw [hp, hd]
    norm_num [SpeedEstimator.rawVelocity, SpeedEstimator.init]

theorem estimateSpeed_unit_conversion_witness :
    ((SpeedEstimator.init 374 30).estimateSpeed 1000000 374).2.mSpeedPrev =
      SpeedEstimator.rawVelocity (SpeedEstimator.init 374 30).mPpr
        (SpeedEstimator.init 374 30).mGearRatio
        ((SpeedEstimator.init 374 30).pulseDiff 374)
        (((SpeedEstimator.init 374 30).deltaTimeMicros 1000000 : ℚ) / 1000000) ∧
    SpeedEstimator.rawVelocity 374 30 374 1 =
      ((374 : ℤ) : ℚ) / 1 / 374 * (1 / 30) * 60 ∧
    SpeedEstimator.rawVelocity 374 30 374 1 = 2 ∧
    ((SpeedEstimator.init 374 30).estimateSpeed 1000000 374).2.mSpeedPrev = 2 :=
  estimateSpeed_unit_conversion (SpeedEstimator.init 374 30) 1000000 374 374 30 1 374
    (by decide)

/-- C6 fails as stated for the returned value: after one accepted call has
loaded the filter history, a second call with a decreasing pulse count over
a positive time delta returns a positive RPM, and the two symmetric calls
do not return values of equal magnitude and opposite sign. -/
theorem estimateSpeed_direction_sign_counterexample :
    ((SpeedEstimator.init 1 1).estimateSpeed 1000000 1).2.pulseDiff 2 = 1 ∧
    ((SpeedEstimator.init 1 1).estimateSpeed 1000000 1).2.pulseDiff 0 = -1 ∧
    ((SpeedEstimator.init 1 1).estimateSpeed 1000000 1).2.deltaTimeMicros 2000000 =
      1000000 ∧
    0 < (((SpeedEstimator.init 1 1).estimateSpeed 1000000 1).2.estimateSpeed
          2000000 0).1 ∧
    (((SpeedEstimator.init 1 1).estimateSpeed 1000000 1).2.estimateSpeed 2000000 0).1 ≠
      -(((SpeedEstimator.init 1 1).estimateSpeed 1000000 1).2.estimateSpeed
          2000000 2).1 := by
  have hs1 : ((SpeedEstimator.init 1 1).estimateSpeed 1000000 1).2 =
      SpeedEstimator.mk 1000000 1 (4101 / 500) 60 1 1 := by
    rw [estimateSpeed_accepted _ _ _ (by decide)]
    have hp : (SpeedEstimator.init 1 1).pulseDiff 1 = 1 := by decide
    have hd : (SpeedEstimator.init 1 1).deltaTimeMicros 1000000 = 1000000 := by decide
    rw [hp, hd]
    norm_num [SpeedEstimator.rawVelocity, SpeedEstimator.init, SpeedEstimator.mk.injEq,
      timeMod, toInt32, intHalf]
  rw [hs1]
  have hd0 : (SpeedEstimator.mk 1000000 1 (4101 / 500) 60 1 1).deltaTimeMicros 2000000 =
      1000000 := by decide
  have hp0 : (SpeedEstimator.mk 1000000 1 (4101 / 500) 60 1 1).pulseDiff 0 = -1 := by
    decide
  have hp2 : (SpeedEstimator.mk 1000000 1 (4101 / 500) 60 1 1).pulseDiff 2 = 1 := by
    decide
  refine ⟨hp2, hp0, hd0, ?_, ?_⟩
  · rw [estimateSpeed_accepted _ _ _ (by decide), hp0, hd0]
    norm_num [SpeedEstimator.rawVelocity]
  · rw [estimateSpeed_accepted _ 2000000 0 (by decide),
      estimateSpeed_accepted _ 2000000 2 (by decide), hp0, hp2, hd0]
    norm_num [SpeedEstimator.rawVelocity]

/-- C6 (amended): with positive configuration and a positive time delta, the
raw (pre-filter) velocity computed by the call is positive for an increasing
pulse count and is odd in the pulse difference; the returned filtered value
has the same symmetry whenever the stored filter history is zero (e.g. on
the first accepted call after reset), the increasing-count call returning a
positive RPM and the decreasing-count call its exact negative. -/
theorem estimateSpeed_direction_sign (s : SpeedEstimator) (t : ℕ) (p q d : ℤ)
    (h1 : 0 < s.mPpr) (h2 : 0 < s.mGearRatio) (h3 : s.deltaTimeMicros t ≠ 0)
    (h4 : 0 < d) (hp : s.pulseDiff p = d) (hq : s.pulseDiff q = -d) :
    0 < SpeedEstimator.rawVelocity s.mPpr s.mGearRatio d
        ((s.deltaTimeMicros t : ℚ) / 1000000) ∧
    SpeedEstimator.rawVelocity s.mPpr s.mGearRatio (-d)
        ((s.deltaTimeMicros t : ℚ) / 1000000) =
      -SpeedEstimator.rawVelocity s.mPpr s.mGearRatio d
        ((s.deltaTimeMicros t : ℚ) / 1000000) ∧
    (s.mSpeedFilt = 0 → s.mSpeedPrev = 0 →
      0 < (s.estimateSpeed t p).1 ∧
      (s.estimateSpeed t q).1 = -(s.estimateSpeed t p).1) := by
  have hdt : 0 < (s.deltaTimeMicros t : ℚ) / 1000000 := by
    have h0 : (0 : ℚ) < (s.deltaTimeMicros t : ℚ) := by
      exact_mod_cast Nat.pos_of_ne_zero h3
    positivity
  have hdQ : (0 : ℚ) < (d : ℤ) := by exact_mod_cast h4
  have hv : 0 < SpeedEstimator.rawVelocity s.mPpr s.mGearRatio d
      ((s.deltaTimeMicros t : ℚ) / 1000000) := by
    unfold SpeedEstimator.rawVelocity
    have hgear : (0 : ℚ) < 1 / s.mGearRatio := by positivity
    have hfrac : (0 : ℚ) < ((d : ℤ) : ℚ) / ((s.deltaTimeMicros t : ℚ) / 1000000) / s.mPpr :=
      div_pos (div_pos hdQ hdt) h1
    have h60 : (0 : ℚ) < 60 := by norm_num
    exact mul_pos (mul_pos hfrac hgear) h60
  have hodd : SpeedEstimator.rawVelocity s.mPpr s.mGearRatio (-d)
      ((s.deltaTimeMicros t : ℚ) / 1000000) =
      -SpeedEstimator.rawVelocity s.mPpr s.mGearRatio d
        ((s.deltaTimeMicros t : ℚ) / 1000000) := by
    unfold SpeedEstimator.rawVelocity
    push_cast
    ring
  refine ⟨hv, hodd, ?_⟩
  intro hf hpr
  rw [estimateSpeed_accepted s t p h3, estimateSpeed_accepted s t q h3, hp, hq, hf, hpr]
  constructor
  · have : (0 : ℚ) < 0.1367 := by norm_num
    nlinarith [hv]
  · rw [hodd]
    ring

theorem estimateSpeed_direction_sign_witness :
    0 < SpeedEstimator.rawVelocity (SpeedEstimator.init 1 1).mPpr
        (SpeedEstimator.init 1 1).mGearRatio 1
        (((SpeedEstimator.init 1 1).deltaTimeMicros 1000000 : ℚ) / 1000000) ∧
    SpeedEstimator.rawVelocity (SpeedEstimator.init 1 1).mPpr
        (SpeedEstimator.init 1 1).mGearRatio (-1)
        (((SpeedEstimator.init 1 1).deltaTimeMicros 1000000 : ℚ) / 1000000) =
      -SpeedEstimator.rawVelocity (SpeedEstimator.init 1 1).mPpr
        (SpeedEstimator.init 1 1).mGearRatio 1
        (((SpeedEstimator.init 1 1).deltaTimeMicros 1000000 : ℚ) / 1000000) ∧
    ((SpeedEstimator.init 1 1).mSpeedFilt = 0 →
      (SpeedEstimator.init 1 1).mSpeedPrev = 0 →
      0 < ((SpeedEstimator.init 1 1).estimateSpeed 1000000 1).1 ∧
      ((SpeedEstimator.init 1 1).estimateSpeed 1000000 (-1)).1 =
        -((SpeedEstimator.init 1 1).estimateSpeed 1000000 1).1) :=
  estimateSpeed_direction_sign (SpeedEstimator.init 1 1) 1000000 1 (-1) 1
    (by norm_num [SpeedEstimator.init]) (by norm_num [SpeedEstimator.init])
    (by decide) (by norm_num) (by decide) (by decide)

/-! ### Finiteness-tracking model of the floating-point state

The C++ fields are `float`; with an invalid configuration
(`mPpr = 0` or `mGearRatio = 0`, which the constructor accepts unchecked)
the divisions of `estimateSpeed` produce Inf/NaN, which the filter then
keeps blending in.  `none` models such a non-finite value; a division by
zero is the only source of non-finite values in this code, and every
operation with a non-finite operand is non-finite.  Configuration values
are taken finite. -/

/-- Float addition, tracking finiteness. -/
def fadd (a b : Option ℚ) : Option ℚ :=
  match a, b with
  | some x, some y => some (x + y)
  | _, _ => none

/-- Float multiplication, tracking finiteness. -/
def fmul (a b : Option ℚ) : Option ℚ :=
  match a, b with
  | some x, some y => some (x * y)
  | _, _ => none

/-- Float division by a finite value, tracking finiteness: dividing by zero
yields a non-finite value (Inf or NaN). -/
def fdiv (a : Option ℚ) (b : ℚ) : Option ℚ :=
  if b = 0 then none else
    match a with
    | some x => some (x / b)
    | none => none

/-- The `SpeedEstimator` state with finiteness-tracked velocity fields. -/
structure SpeedEstimatorF where
  mPrevTime : ℕ
  mPrevNumPulses : ℤ
  mSpeedFilt : Option ℚ
  mSpeedPrev : Option ℚ
  mPpr : ℚ
  mGearRatio : ℚ

namespace SpeedEstimatorF

/-- The constructor, in the finiteness-tracking model. -/
def init (ppr gearRatio : ℚ) : SpeedEstimatorF :=
  { mPrevTime := 0, mPrevNumPulses := 0, mSpeedFilt := some 0,
    mSpeedPrev := some 0, mPpr := ppr, mGearRatio := gearRatio }

/-- `estimateSpeed`, in the finiteness-tracking model.  The time delta is an
exact integer divided by the nonzero constant `1.0e6`, hence always finite. -/
def estimateSpeed (s : SpeedEstimatorF) (currTime : ℕ) (pulsesCount : ℤ) :
    Option ℚ × SpeedEstimatorF :=
  let dtm : ℕ := usub32 currTime s.mPrevTime
  let deltaTime : ℚ := (dtm : ℚ) / 1000000
  if deltaTime ≤ 0 then
    (s.mSpeedFilt, s)
  else
    let pd : ℤ := ssub32 (toInt32 pulsesCount) s.mPrevNumPulses
    let velocity : Option ℚ := fdiv (some (pd : ℚ)) deltaTime
    let velocity2 : Option ℚ :=
      fmul (fmul (fdiv velocity s.mPpr) (fdiv (some 1) s.mGearRatio)) (some 60)
    let speedFilt : Option ℚ :=
      fadd (fadd (fmul (some 0.7265) s.mSpeedFilt) (fmul (some 0.1367) velocity2))
        (fmul (some 0.1367) s.mSpeedPrev)
    (speedFilt,
      { s with
        mPrevNumPulses := toInt32 pulsesCount,
        mPrevTime := currTime % timeMod,
        mSpeedFilt := speedFilt,
        mSpeedPrev := velocity2 })

/-- `reset`, in the finiteness-tracking model. -/
def reset (s : SpeedEstimatorF) : SpeedEstimatorF :=
  { s with
    mPrevTime := 0,
    mPrevNumPulses := 0,
    mSpeedFilt := some 0,
    mSpeedPrev := some 0 }

end SpeedEstimatorF

/-- The states reachable by any sequence of `estimateSpeed` and `reset`
calls after construction with configuration `(ppr, gearRatio)`. -/
inductive ReachableF (ppr gearRatio : ℚ) : SpeedEstimatorF → Prop
  | construct : ReachableF ppr gearRatio (SpeedEstimatorF.init ppr gearRatio)
  | step (s : SpeedEstimatorF) (t : ℕ) (p : ℤ) :
      ReachableF ppr gearRatio s → ReachableF ppr gearRatio (s.estimateSpeed t p).2
  | reset (s : SpeedEstimatorF) :
      ReachableF ppr gearRatio s → ReachableF ppr gearRatio s.reset

lemma fadd_isSome {a b : Option ℚ} (ha : a.isSome) (hb : b.isSome) :
    (fadd a b).isSome := by
  obtain ⟨x, hx⟩ := Option.isSome_iff_exists.mp ha
  obtain ⟨y, hy⟩ := Option.isSome_iff_exists.mp hb
  simp [fadd, hx, hy]

lemma fmul_isSome {a b : Option ℚ} (ha : a.isSome) (hb : b.isSome) :
    (fmul a b).isSome := by
  obtain ⟨x, hx⟩ := Option.isSome_iff_exists.mp ha
  obtain ⟨y, hy⟩ := Option.isSome_iff_exists.mp hb
  simp [fmul, hx, hy]

lemma fdiv_isSome {a : Option ℚ} (ha : a.isSome) {b : ℚ} (hb : b ≠ 0) :
    (fdiv a b).isSome := by
  obtain ⟨x, hx⟩ := Option.isSome_iff_exists.mp ha
  simp [fdiv, hx, hb]

lemma estimateSpeedF_config (s : SpeedEstimatorF) (t : ℕ) (p : ℤ) :
    (s.estimateSpeed t p).2.mPpr = s.mPpr ∧
    (s.estimateSpeed t p).2.mGearRatio = s.mGearRatio := by
  simp only [SpeedEstimatorF.estimateSpeed]
  split
  · exact ⟨rfl, rfl⟩
  · exact ⟨rfl, rfl⟩

lemma estimateSpeedF_isSome (s : SpeedEstimatorF) (t : ℕ) (p : ℤ)
    (hp : s.mPpr ≠ 0) (hg : s.mGearRatio ≠ 0)
    (h1 : s.mSpeedFilt.isSome) (h2 : s.mSpeedPrev.isSome) :
    (s.estimateSpeed t p).2.mSpeedFilt.isSome ∧
    (s.estimateSpeed t p).2.mSpeedPrev.isSome := by
  simp only [SpeedEstimatorF.estimateSpeed]
  split
  · exact ⟨h1, h2⟩
  · rename_i hcond
    have hne : ((usub32 t s.mPrevTime : ℕ) : ℚ) / 1000000 ≠ 0 := by
      intro h0
      exact hcond (le_of_eq h0)
    have hv : (fdiv (some ((ssub32 (toInt32 p) s.mPrevNumPulses : ℤ) : ℚ))
        (((usub32 t s.mPrevTime : ℕ) : ℚ) / 1000000)).isSome :=
      fdiv_isSome (Option.isSome_some ..) hne
    have hv2 : (fmul (fmul (fdiv (fdiv (some ((ssub32 (toInt32 p) s.mPrevNumPulses : ℤ) : ℚ))
        (((usub32 t s.mPrevTime : ℕ) : ℚ) / 1000000)) s.mPpr)
        (fdiv (some 1) s.mGearRatio)) (some 60)).isSome :=
      fmul_isSome (fmul_isSome (fdiv_isSome hv hp) (fdiv_isSome (Option.isSome_some ..) hg))
        (Option.isSome_some ..)
    exact ⟨fadd_isSome (fadd_isSome (fmul_isSome (Option.isSome_some ..) h1)
      (fmul_isSome (Option.isSome_some ..) hv2))
      (fmul_isSome (Option.isSome_some ..) h2), hv2⟩

lemma reachableF_inv (ppr gearRatio : ℚ) (s : SpeedEstimatorF)
    (hp : ppr ≠ 0) (hg : gearRatio ≠ 0) (hr : ReachableF ppr gearRatio s) :
    s.mPpr = ppr ∧ s.mGearRatio = gearRatio ∧
    s.mSpeedFilt.isSome ∧ s.mSpeedPrev.isSome := by
  induction hr with
  | construct => exact ⟨rfl, rfl, by simp [SpeedEstimatorF.init], by simp [SpeedEstimatorF.init]⟩
  | step s t p hr ih =>
    obtain ⟨e1, e2, h1, h2⟩ := ih
    have hc := estimateSpeedF_config s t p
    have hs := estimateSpeedF_isSome s t p (by rw [e1]; exact hp) (by rw [e2]; exact hg)
      h1 h2
    exact ⟨hc.1.trans e1, hc.2.trans e2, hs.1, hs.2⟩
  | reset s hr ih =>
    obtain ⟨e1, e2, h1, h2⟩ := ih
    exact ⟨e1, e2, by simp [SpeedEstimatorF.reset], by simp [SpeedEstimatorF.reset]⟩

/-- C9 fails as stated: the constructor accepts `gearRatio = 0` unchecked,
and the first accepted call then divides by zero, leaving non-finite
(Inf/NaN) values stored in both velocity fields of a reachable state. -/
theorem reachable_nonfinite_counterexample :
    ReachableF 1 0 ((SpeedEstimatorF.init 1 0).estimateSpeed 1000000 1).2 ∧
    ((SpeedEstimatorF.init 1 0).estimateSpeed 1000000 1).2.mSpeedFilt = none ∧
    ((SpeedEstimatorF.init 1 0).estimateSpeed 1000000 1).2.mSpeedPrev = none := by
  refine ⟨ReachableF.step _ 1000000 1 ReachableF.construct, ?_⟩
  norm_num [SpeedEstimatorF.estimateSpeed, SpeedEstimatorF.init, fadd, fmul, fdiv,
    usub32, ssub32, toInt32, timeMod, intHalf]

/-- C9 (amended): for every reachable state of an estimator whose
configuration has `pulsesPerRevolution ≠ 0` and `gearRatio ≠ 0`, the fields
`filteredVelocity` and `previousVelocity` are always finite; with a zero
configuration value (which the constructor accepts unchecked) the invariant
fails, as the counterexample shows. -/
theorem reachable_finite_of_nonzero_config (ppr gearRatio : ℚ)
    (s : SpeedEstimatorF) (hp : ppr ≠ 0) (hg : gearRatio ≠ 0)
    (hr : ReachableF ppr gearRatio s) :
    s.mSpeedFilt.isSome ∧ s.mSpeedPrev.isSome :=
  ⟨(reachableF_inv ppr gearRatio s hp hg hr).2.2.1,
   (reachableF_inv ppr gearRatio s hp hg hr).2.2.2⟩

theorem reachable_finite_of_nonzero_config_witness :
    ((SpeedEstimatorF.init 374 30).estimateSpeed 1000000 374).2.mSpeedFilt.isSome ∧
    ((SpeedEstimatorF.init 374 30).estimateSpeed 1000000 374).2.mSpeedPrev.isSome :=
  reachable_finite_of_nonzero_config 374 30 _ (by norm_num) (by norm_num)
    (ReachableF.step _ 1000000 374 ReachableF.construct)
